import Mathlib

/-!
Shallow embedding of the danmu (live-chat) protocol client of this
repository, file src/minesweeper/danmuji.py, class Danmuji.

Modelling conventions:
* Python bytes objects become List Nat (one Nat per byte).
* Python str values become String / List Char (one Char per code point).
* json.loads output becomes the inductive JVal; the calls to the library
  functions json.loads and zlib.decompress themselves are not repository
  code and are passed in as oracle parameters (jsonParse, inflate), where
  none models the library call raising.
* Exceptions are explicit: decode_danmu returns the list of entries
  appended to self.danmu_list together with an Option PyErr; some e means
  the Python call raises e after having appended exactly those entries
  (the append side effects survive the exception).  Python recursion
  exhaustion is modelled by a fuel parameter whose exhaustion yields
  recursionError.
* The regular expressions of decode_danmu are translated into explicit
  backtracking matchers with Python re semantics restricted to the
  relevant alphabet: the character class for a digit is modelled as the
  ASCII digits 0-9 (Python re also accepts other Unicode decimal digits,
  which no claim and no counterexample below touches).
-/

namespace Danmuji

/-- Python errors that the modelled code can raise. -/
inductive PyErr where
  | valueError
  | recursionError
  | zlibError
  | keyError
  | typeError
  | indexError
deriving DecidableEq, Repr

/-- Result of json.loads: a JSON value. -/
inductive JVal where
  | jnull
  | jbool (b : Bool)
  | jnum (n : Int)
  | jstr (s : String)
  | jarr (elems : List JVal)
  | jobj (fields : List (String × JVal))

/-- Python equality test of a JSON value against a string literal: true
exactly when the value is that string (any non-string compares unequal
to a str in Python). -/
def jeqStr (v : JVal) (s : String) : Bool :=
  match v with
  | JVal.jstr t => t = s
  | _ => false

/-- Dictionary access jd[key] on a JSON value, as Python performs it:
a missing key raises KeyError, a non-dict raises TypeError. -/
def jlookup (v : JVal) (key : String) : Except PyErr JVal :=
  match v with
  | JVal.jobj fields =>
    match fields.find? (fun p => p.1 = key) with
    | some p => Except.ok p.2
    | none => Except.error PyErr.keyError
  | _ => Except.error PyErr.typeError

/-- Index access v[i] on a JSON value: list indexing raises IndexError
when out of range; non-lists raise TypeError. -/
def jindex (v : JVal) (i : Nat) : Except PyErr JVal :=
  match v with
  | JVal.jarr xs =>
    match xs.get? i with
    | some x => Except.ok x
    | none => Except.error PyErr.indexError
  | _ => Except.error PyErr.typeError

/-- One tuple appended to self.danmu_list.  The Python tuples are
(user, op-string, argument); the op-string becomes the constructor:
gift for (u, "gift", ""), check / uncheck / openCell for the three
cell operations with argument (col, row), difficulty for the
difficulty keyword with its uppercased level string. -/
inductive Entry where
  | gift (user : JVal)
  | check (user : JVal) (col row : Nat)
  | uncheck (user : JVal) (col row : Nat)
  | openCell (user : JVal) (col row : Nat)
  | difficulty (user : JVal) (level : String)

/-- A classified chat-message command before the user is attached. -/
inductive TextCmd where
  | openCell (col row : Nat)
  | check (col row : Nat)
  | uncheck (col row : Nat)
  | difficulty (level : String)
deriving DecidableEq, Repr

/-- ASCII lowercase letter test, the character class of the regex atom
bracketed a-z in decode_danmu. -/
def isLower (c : Char) : Bool := 97 ≤ c.toNat && c.toNat ≤ 122

/-- ASCII uppercase letter test, the character class of the regex atom
bracketed A-Z. -/
def isUpper (c : Char) : Bool := 65 ≤ c.toNat && c.toNat ≤ 90

/-- Letter test for the regex group matching one letter. -/
def isLetterAZ (c : Char) : Bool := isLower c || isUpper c

/-- ASCII digit test for the regex digit atom. -/
def isDigit09 (c : Char) : Bool := 48 ≤ c.toNat && c.toNat ≤ 57

/-- Numeric value of a digit character, as int() computes it. -/
def digitVal (c : Char) : Nat := c.toNat - 48

/-- Column index of a letter: ord of the lowercased letter minus ord
of the letter a, exactly ord(m.group(n).lower()) - ord('a'). -/
def colOf (c : Char) : Nat := (if isUpper c then c.toNat + 32 else c.toNat) - 97

/-- Candidate matches of the optional bang-marker group against the
front of the text for one bang character c, in the backtracking order
of the regex piece with two optional occurrences of c: span two first,
then span one, then the empty span.  Each candidate is the number of
marker characters consumed paired with the remaining text. -/
def bangSpans (c : Char) (cs : List Char) : List (Nat × List Char) :=
  match cs with
  | a :: b :: rest =>
    (if a = c ∧ b = c then [(2, rest)] else []) ++
    (if a = c then [(1, b :: rest)] else []) ++
    [(0, a :: b :: rest)]
  | [a] =>
    (if a = c then [(1, ([] : List Char))] else []) ++ [(0, [a])]
  | [] => [(0, ([] : List Char))]

/-- Tail of the letter-first regex after the marker group: one letter
then two digits or one digit (two preferred, as in the alternation with
the double digit atom first).  Returns (col, row). -/
def tailLD (cs : List Char) : Option (Nat × Nat) :=
  match cs with
  | c :: d1 :: d2 :: _ =>
    if isLetterAZ c ∧ isDigit09 d1 ∧ isDigit09 d2 then
      some (colOf c, 10 * digitVal d1 + digitVal d2)
    else if isLetterAZ c ∧ isDigit09 d1 then
      some (colOf c, digitVal d1)
    else none
  | [c, d1] =>
    if isLetterAZ c ∧ isDigit09 d1 then some (colOf c, digitVal d1) else none
  | _ => none

/-- Tail of the digit-first regex after the marker group: two digits or
one digit (two preferred), then one letter.  Returns (col, row). -/
def tailDL (cs : List Char) : Option (Nat × Nat) :=
  match cs with
  | d1 :: d2 :: c :: _ =>
    if isDigit09 d1 ∧ isDigit09 d2 ∧ isLetterAZ c then
      some (colOf c, 10 * digitVal d1 + digitVal d2)
    else if isDigit09 d1 ∧ isLetterAZ d2 then
      some (colOf d2, digitVal d1)
    else none
  | [d1, d2] =>
    if isDigit09 d1 ∧ isLetterAZ d2 then some (colOf d2, digitVal d1) else none
  | _ => none

/-- Full match attempt of the letter-first pattern of decode_danmu
against the front of the text: marker alternation tries the ASCII bang
branch completely before the full-width bang branch.  Returns the
marker count together with (col, row). -/
def matchLetterFirst (cs : List Char) : Option (Nat × Nat × Nat) :=
  (bangSpans '!' cs ++ bangSpans '！' cs).findSome? fun sr =>
    (tailLD sr.2).map fun cr => (sr.1, cr.1, cr.2)

/-- Full match attempt of the digit-first pattern of decode_danmu.
Returns the marker count together with (col, row). -/
def matchDigitFirst (cs : List Char) : Option (Nat × Nat × Nat) :=
  (bangSpans '!' cs ++ bangSpans '！' cs).findSome? fun sr =>
    (tailDL sr.2).map fun cr => (sr.1, cr.1, cr.2)

/-- Whether the first list is an initial segment of the second. -/
def listStartsWith : List Char → List Char → Bool
  | [], _ => true
  | _ :: _, [] => false
  | a :: as, b :: bs => a = b && listStartsWith as bs

/-- Keyword match of the third regex of decode_danmu: the literal
alternatives easy, normal, EASY, NORMAL tried in order against the
front of the text; returns the matched literal. -/
def matchKeyword (cs : List Char) : Option String :=
  (["easy", "normal", "EASY", "NORMAL"]).findSome? fun w =>
    if listStartsWith w.data cs then some w else none

/-- Python str.upper restricted to ASCII, as applied to the matched
keyword literal. -/
def pyUpper (s : String) : String :=
  String.mk (s.data.map fun c => if isLower c then Char.ofNat (c.toNat - 32) else c)

/-- Marker-count dispatch of decode_danmu: group one equal to a single
bang gives check, a double bang gives uncheck, otherwise (the empty
marker) openCell. -/
def cmdOfCount (k col row : Nat) : TextCmd :=
  if k = 1 then TextCmd.check col row
  else if k = 2 then TextCmd.uncheck col row
  else TextCmd.openCell col row

/-- Classification of one chat-message text by the three successive
re.match calls of the DANMU_MSG branch of decode_danmu: letter-first
cell pattern, then digit-first cell pattern, then difficulty keyword. -/
def classifyText (cs : List Char) : Option TextCmd :=
  match matchLetterFirst cs with
  | some scr => some (cmdOfCount scr.1 scr.2.1 scr.2.2)
  | none =>
    match matchDigitFirst cs with
    | some scr => some (cmdOfCount scr.1 scr.2.1 scr.2.2)
    | none =>
      match matchKeyword cs with
      | some w => some (TextCmd.difficulty (pyUpper w))
      | none => none

/-- Attach the message author to a classified text command, yielding the
tuple appended to self.danmu_list. -/
def entryOf (user : JVal) : TextCmd → Entry
  | TextCmd.openCell col row => Entry.openCell user col row
  | TextCmd.check col row => Entry.check user col row
  | TextCmd.uncheck col row => Entry.uncheck user col row
  | TextCmd.difficulty level => Entry.difficulty user level

/-- Body of the opcode-5 branch of decode_danmu after json.loads has
produced jd: dispatch on jd at the cmd key; SEND_GIFT appends a gift
entry only for the tracked gift name; GUARD_BUY always appends a gift
entry; DANMU_MSG reads user and text positionally and classifies the
text.  Errors are the Python exceptions raised inside the try block
(all caught by the surrounding except). -/
def parseBody (jd : JVal) : Except PyErr (List Entry) := do
  let cmd ← jlookup jd "cmd"
  if jeqStr cmd "SEND_GIFT" then
    let d ← jlookup jd "data"
    let uname ← jlookup d "uname"
    let _num ← jlookup d "num"
    let giftName ← jlookup d "giftName"
    if jeqStr giftName "吃瓜" then
      pure [Entry.gift uname]
    else
      pure []
  else if jeqStr cmd "GUARD_BUY" then
    let d ← jlookup jd "data"
    let username ← jlookup d "username"
    pure [Entry.gift username]
  else if jeqStr cmd "DANMU_MSG" then
    let info ← jlookup jd "info"
    let i2 ← jindex info 2
    let user ← jindex i2 1
    let textv ← jindex info 1
    match textv with
    | JVal.jstr text =>
      match classifyText text.data with
      | some tc => pure [entryOf user tc]
      | none => pure []
    | _ => Except.error PyErr.typeError
  else
    pure []

/-- The surrounding try-except of the opcode-5 branch: a raised
exception is printed and swallowed, leaving no appended entries. -/
def catchEntries : Except PyErr (List Entry) → List Entry
  | Except.ok es => es
  | Except.error _ => []

/-- Big-endian integer value of a byte slice, as int(slice.hex(), 16)
computes it on a nonempty slice. -/
def bytesToNat (bs : List Nat) : Nat := bs.foldl (fun acc b => acc * 256 + b) 0

/-- The packet length field: first four bytes, big endian. -/
def lenField (data : List Nat) : Nat := bytesToNat (data.take 4)

/-- The version field: bytes six to eight, big endian. -/
def verField (data : List Nat) : Nat := bytesToNat ((data.drop 6).take 2)

/-- The opcode field: bytes eight to twelve, big endian. -/
def opField (data : List Nat) : Nat := bytesToNat ((data.drop 8).take 4)

/-- The tail of decode_danmu once the header fields are read and the
trailing concatenated frames have been handled: the version-2 branch
decompresses and recurses through the supplied continuation, the
version-1 branch only logs, the opcode-5 branch parses JSON inside a
try block.  pre is the list of entries already appended by the earlier
recursive call; data is the possibly truncated current frame. -/
def processFrame (inflate : List Nat → Option (List Nat))
    (jsonParse : List Nat → Option JVal)
    (recur : List Nat → List Entry × Option PyErr)
    (ver op : Nat) (data : List Nat) (pre : List Entry) : List Entry × Option PyErr :=
  if ver = 2 then
    match inflate (List.drop 16 data) with
    | none => (pre, some PyErr.zlibError)
    | some d =>
      let sub := recur d
      (pre ++ sub.1, sub.2)
  else if ver = 1 then (pre, none)
  else if op = 5 then
    match jsonParse (List.drop 16 data) with
    | none => (pre, none)
    | some jd => (pre ++ catchEntries (parseBody jd), none)
  else (pre, none)

/-- Faithful model of Danmuji.decode_danmu.  The two library calls are
oracle parameters: inflate models zlib.decompress (none meaning the
call raises zlib.error) and jsonParse models the composition of
bytes.decode with errors ignored and json.loads (none meaning
json.loads raises, which the try block catches).  The result pairs the
entries appended to self.danmu_list, in append order, with the
exception the call raises, if any.  A buffer of at most eight bytes
makes one of the three int(slice.hex(), 16) header reads see an empty
slice and raise ValueError before anything else happens.  The fuel
parameter models the Python recursion limit: its exhaustion is
RecursionError, which the source hits when the packet length field is
zero on a strictly longer buffer. -/
def decode_danmu (inflate : List Nat → Option (List Nat))
    (jsonParse : List Nat → Option JVal) : Nat → List Nat → List Entry × Option PyErr
  | 0, _ => ([], some PyErr.recursionError)
  | fuel + 1, data0 =>
    if data0.length ≤ 8 then ([], some PyErr.valueError) else
    let packetLen := lenField data0
    let res := if packetLen < data0.length
      then decode_danmu inflate jsonParse fuel (List.drop packetLen data0)
      else (([] : List Entry), (none : Option PyErr))
    match res.2 with
    | some e => (res.1, some e)
    | none =>
      processFrame inflate jsonParse (decode_danmu inflate jsonParse fuel)
        (verField data0) (opField data0)
        (if packetLen < data0.length then List.take packetLen data0 else data0) res.1

/-- Entries contributed by one processed frame with the given version,
opcode and bytes when the version is not the compressed marker:
nothing for version one, the caught opcode-5 parse result for opcode
five, nothing otherwise. -/
def branchEntries (jsonParse : List Nat → Option JVal)
    (ver op : Nat) (data : List Nat) : List Entry :=
  if ver = 1 then []
  else if op = 5 then
    match jsonParse (List.drop 16 data) with
    | none => []
    | some jd => catchEntries (parseBody jd)
  else []

/-- Entries contributed by one structurally valid uncompressed frame
when decode_danmu processes it alone. -/
def frameEntries (jsonParse : List Nat → Option JVal) (f : List Nat) : List Entry :=
  branchEntries jsonParse (verField f) (opField f) f

/-- Structural validity of one uncompressed frame as the wire format
defines it: at least the sixteen header bytes, length field equal to
the actual byte length, version not the compressed marker two. -/
def ValidFrame (f : List Nat) : Prop :=
  16 ≤ f.length ∧ lenField f = f.length ∧ verField f ≠ 2

instance (f : List Nat) : Decidable (ValidFrame f) := by
  unfold ValidFrame; infer_instance

/-- Model of Danmuji.get_danmu_list: under the lock the list is copied,
the original is cleared, and the copy is returned.  The state is the
current danmu list; the result pairs the returned copy with the new
state. -/
def get_danmu_list (l : List Entry) : List Entry × List Entry := (l, [])

/-- Model of one producer append to self.danmu_list under the lock. -/
def pushEntry (l : List Entry) (e : Entry) : List Entry := l ++ [e]

/-- One queue operation: a producer append or a consumer drain. -/
inductive QOp where
  | push (e : Entry)
  | drain

/-- Run a sequence of queue operations from a starting list, returning
the final list and the concatenation of everything the drains returned,
in order. -/
def runOps : List QOp → List Entry → List Entry × List Entry
  | [], l => (l, [])
  | QOp.push e :: ops, l => runOps ops (pushEntry l e)
  | QOp.drain :: ops, l =>
    let out := (get_danmu_list l).1
    let next := runOps ops (get_danmu_list l).2
    (next.1, out ++ next.2)

/-- The entries pushed by a sequence of queue operations, in order. -/
def pushedOf : List QOp → List Entry
  | [] => []
  | QOp.push e :: ops => e :: pushedOf ops
  | QOp.drain :: ops => pushedOf ops

/-- The letter with the given index among the fifty-two letters the
cell regex accepts: indices zero to twenty-five are the lowercase
letters in order, twenty-six to fifty-one the uppercase letters. -/
def letterOfIdx (a : Nat) : Char :=
  if a < 26 then Char.ofNat (97 + a) else Char.ofNat (65 + (a - 26))

/-- The digit character with the given value. -/
def digitChar (n : Nat) : Char := Char.ofNat (48 + n)

/-- Decimal representation of a row number as the regex sees it: the
two-digit form (tens digit then ones digit, allowing a leading zero)
or the one-digit form (only meaningful below ten). -/
def rowDigits (r : Nat) (twoDigit : Bool) : List Char :=
  if twoDigit then [digitChar (r / 10), digitChar (r % 10)] else [digitChar r]

/-- The two bang marker characters: index zero is the ASCII bang,
index one the full-width bang. -/
def bangOf (i : Nat) : Char := if i = 0 then '!' else '！'

/-- A marker prefix of k copies of the chosen bang character. -/
def markerChars (k i : Nat) : List Char := List.replicate k (bangOf i)

/-- Sample payload of a DANMU_MSG business event: user u1 sends the
chat text a1.  json.loads of the corresponding JSON bytes yields
exactly this value. -/
def jdEx1 : JVal := JVal.jobj [("cmd", JVal.jstr "DANMU_MSG"),
  ("info", JVal.jarr [JVal.jnull, JVal.jstr "a1", JVal.jarr [JVal.jnum 0, JVal.jstr "u1"]])]

/-- Sample payload of a second DANMU_MSG business event: user u2 sends
the chat text b2. -/
def jdEx2 : JVal := JVal.jobj [("cmd", JVal.jstr "DANMU_MSG"),
  ("info", JVal.jarr [JVal.jnull, JVal.jstr "b2", JVal.jarr [JVal.jnum 0, JVal.jstr "u2"]])]

/-- The entry the chat text a1 from user u1 appends. -/
def entryEx1 : Entry := Entry.openCell (JVal.jstr "u1") 0 1

/-- The entry the chat text b2 from user u2 appends. -/
def entryEx2 : Entry := Entry.openCell (JVal.jstr "u2") 1 2

/-- A structurally valid uncompressed opcode-5 frame of length
seventeen whose one-byte payload selects jdEx1 under jsonEx. -/
def frameEx1 : List Nat := [0, 0, 0, 17, 0, 16, 0, 0, 0, 0, 0, 5, 0, 0, 0, 1, 1]

/-- A structurally valid uncompressed opcode-5 frame whose payload
selects jdEx2 under jsonEx. -/
def frameEx2 : List Nat := [0, 0, 0, 17, 0, 16, 0, 0, 0, 0, 0, 5, 0, 0, 0, 1, 2]

/-- A version-2 frame of length nineteen whose three-byte payload is
not a valid zlib stream (its first two bytes fail the zlib header
check, so zlib.decompress raises on it). -/
def frameZbad : List Nat := [0, 0, 0, 19, 0, 16, 0, 2, 0, 0, 0, 5, 0, 0, 0, 1, 1, 2, 3]

/-- Concrete json.loads oracle for the sample frames: payload byte one
is the first DANMU_MSG event, payload byte two the second. -/
def jsonEx : List Nat → Option JVal := fun bs =>
  if bs = [1] then some jdEx1 else if bs = [2] then some jdEx2 else none

/-- A zlib.decompress oracle that raises on every input; in the
counterexamples below it is only ever consulted at the payload of
frameZbad, on which the real zlib.decompress raises. -/
def inflateNone : List Nat → Option (List Nat) := fun _ => none

/-- A json.loads oracle that raises on every input. -/
def jsonNone : List Nat → Option JVal := fun _ => none

/-- Sample SEND_GIFT payload carrying the tracked gift name. -/
def jdGift : JVal := JVal.jobj [("cmd", JVal.jstr "SEND_GIFT"),
  ("data", JVal.jobj [("uname", JVal.jstr "g1"), ("num", JVal.jnum 3),
    ("giftName", JVal.jstr "吃瓜")])]

/-- Sample SEND_GIFT payload carrying a different gift name. -/
def jdGiftOther : JVal := JVal.jobj [("cmd", JVal.jstr "SEND_GIFT"),
  ("data", JVal.jobj [("uname", JVal.jstr "g1"), ("num", JVal.jnum 3),
    ("giftName", JVal.jstr "辣条")])]

/-- Sample GUARD_BUY payload. -/
def jdGuard : JVal := JVal.jobj [("cmd", JVal.jstr "GUARD_BUY"),
  ("data", JVal.jobj [("username", JVal.jstr "g2")])]

/-- A minimal sixteen-byte opcode-5 frame with an empty payload. -/
def frame16 : List Nat := [0, 0, 0, 16, 0, 16, 0, 0, 0, 0, 0, 5, 0, 0, 0, 1]

/-- A JSON payload whose cmd value is not one of the three recognized
business commands. -/
def jdOther : JVal := JVal.jobj [("cmd", JVal.jstr "LIVE")]

/-- A json.loads oracle returning an object without the cmd key, so
that the cmd lookup raises KeyError inside the try block. -/
def jsonKeyless : List Nat → Option JVal := fun _ => some (JVal.jobj [])

/-- A json.loads oracle returning an object with an unrecognized cmd. -/
def jsonOther : List Nat → Option JVal := fun _ => some jdOther

/-- The exact output of zlib.compress on the byte string
frameEx1 ++ frameEx2 (deflate level six, zlib container), so that
zlib.decompress of these bytes is frameEx1 ++ frameEx2. -/
def zlibEx : List Nat :=
  [120, 156, 99, 96, 96, 16, 100, 16, 96, 0, 1, 86, 32, 102, 100, 100, 64, 19, 96, 2, 0,
    6, 105, 0, 82]

/-- A version-2 frame of length forty-one whose payload is zlibEx: its
decompressed payload is the concatenation of the two sample frames. -/
def frameWrap : List Nat :=
  [0, 0, 0, 41, 0, 16, 0, 2, 0, 0, 0, 5, 0, 0, 0, 1] ++ zlibEx

/-- A zlib.decompress oracle agreeing with the real zlib.decompress on
the only input it is consulted at: zlibEx inflates to the two sample
frames. -/
def inflateEx : List Nat → Option (List Nat) := fun bs =>
  if bs = zlibEx then some (frameEx1 ++ frameEx2) else none

end Danmuji

namespace Danmuji

theorem lenField_append (f r : List Nat) (h : 4 ≤ f.length) :
    lenField (f ++ r) = lenField f := by
  unfold lenField
  rw [List.take_append_eq_append_take, Nat.sub_eq_zero_of_le h]
  simp

theorem verField_append (f r : List Nat) (h : 8 ≤ f.length) :
    verField (f ++ r) = verField f := by
  unfold verField
  rw [List.drop_append_eq_append_drop, Nat.sub_eq_zero_of_le (by omega), List.drop_zero,
    List.take_append_eq_append_take, List.length_drop, Nat.sub_eq_zero_of_le (by omega)]
  simp

theorem opField_append (f r : List Nat) (h : 12 ≤ f.length) :
    opField (f ++ r) = opField f := by
  unfold opField
  rw [List.drop_append_eq_append_drop, Nat.sub_eq_zero_of_le (by omega), List.drop_zero,
    List.take_append_eq_append_take, List.length_drop, Nat.sub_eq_zero_of_le (by omega)]
  simp

theorem processFrame_notTwo (inflate : List Nat → Option (List Nat))
    (jsonParse : List Nat → Option JVal) (recur : List Nat → List Entry × Option PyErr)
    (ver op : Nat) (data : List Nat) (pre : List Entry) (hver : ver ≠ 2) :
    processFrame inflate jsonParse recur ver op data pre =
      (pre ++ branchEntries jsonParse ver op data, none) := by
  unfold processFrame branchEntries
  rw [if_neg hver]
  by_cases h1 : ver = 1
  · simp [h1]
  · rw [if_neg h1, if_neg h1]
    by_cases h5 : op = 5
    · rw [if_pos h5, if_pos h5]
      cases jsonParse (List.drop 16 data) <;> simp
    · simp [h5]

theorem decode_single (inflate : List Nat → Option (List Nat))
    (jsonParse : List Nat → Option JVal) (fuel : Nat) (f : List Nat) (hv : ValidFrame f) :
    decode_danmu inflate jsonParse (fuel + 1) f = (frameEntries jsonParse f, none) := by
  obtain ⟨h16, hlen, hver⟩ := hv
  rw [decode_danmu]
  rw [if_neg (by omega)]
  simp only [hlen, lt_self_iff_false, if_false]
  rw [processFrame_notTwo _ _ _ _ _ _ _ hver]
  simp [frameEntries]

theorem decode_join (inflate : List Nat → Option (List Nat))
    (jsonParse : List Nat → Option JVal) :
    ∀ (frames : List (List Nat)) (fuel : Nat), frames ≠ [] →
      (∀ f ∈ frames, ValidFrame f) → frames.length ≤ fuel →
      decode_danmu inflate jsonParse fuel frames.flatten =
        (((frames.reverse).map (frameEntries jsonParse)).flatten, none) := by
  intro frames
  induction frames with
  | nil => intro fuel h; exact absurd rfl h
  | cons f rest ih =>
    intro fuel _ hv hfuel
    obtain ⟨fuel, rfl⟩ : ∃ k, fuel = k + 1 := ⟨fuel - 1, by simp at hfuel; omega⟩
    have hvf : ValidFrame f := hv f (List.mem_cons_self _ _)
    obtain ⟨h16, hlen, hver⟩ := hvf
    cases rest with
    | nil =>
      rw [show ([f] : List (List Nat)).flatten = f by simp]
      rw [decode_single _ _ _ _ ⟨h16, hlen, hver⟩]
      simp
    | cons g rest' =>
      have hg : ValidFrame g := hv g (by simp)
      have hjlen : 16 ≤ (g :: rest').flatten.length := by
        rw [show (g :: rest').flatten = g ++ rest'.flatten from rfl, List.length_append]
        have := hg.1
        omega
      have hplen : lenField (f ++ (g :: rest').flatten) = f.length := by
        rw [lenField_append _ _ (by omega), hlen]
      rw [show (f :: g :: rest').flatten = f ++ (g :: rest').flatten from rfl]
      rw [decode_danmu, if_neg (by rw [List.length_append]; omega)]
      have hlt : lenField (f ++ (g :: rest').flatten) < (f ++ (g :: rest').flatten).length := by
        rw [hplen, List.length_append]; omega
      simp only [if_pos hlt, hplen]
      rw [List.drop_left, List.take_left]
      rw [ih fuel (by simp) (fun x hx => hv x (List.mem_cons_of_mem _ hx))
        (by simp at hfuel ⊢; omega)]
      rw [verField_append _ _ (by omega), opField_append _ _ (by omega)]
      rw [processFrame_notTwo _ _ _ _ _ _ _ hver]
      have hgpos : 0 < g.length := by have := hg.1; omega
      simp [frameEntries, List.reverse_cons, List.map_append, List.flatten_append, hgpos,
        List.append_assoc]

end Danmuji
namespace Danmuji

theorem decode_short (inflate : List Nat → Option (List Nat))
    (jsonParse : List Nat → Option JVal) (fuel : Nat) (data : List Nat)
    (hlen : data.length ≤ 8) (hfuel : 1 ≤ fuel) :
    decode_danmu inflate jsonParse fuel data = ([], some PyErr.valueError) := by
  obtain ⟨k, rfl⟩ : ∃ k, fuel = k + 1 := ⟨fuel - 1, by omega⟩
  rw [decode_danmu, if_pos hlen]

theorem decode_split_err (inflate : List Nat → Option (List Nat))
    (jsonParse : List Nat → Option JVal) (f tail : List Nat) (hv : ValidFrame f)
    (htail : tail ≠ []) (fuel : Nat) (es : List Entry) (e : PyErr)
    (h : decode_danmu inflate jsonParse fuel tail = (es, some e)) :
    decode_danmu inflate jsonParse (fuel + 1) (f ++ tail) = (es, some e) := by
  obtain ⟨h16, hlen, hver⟩ := hv
  have hplen : lenField (f ++ tail) = f.length := by
    rw [lenField_append _ _ (by omega), hlen]
  have htl : 0 < tail.length := List.length_pos.mpr htail
  have hlt : lenField (f ++ tail) < (f ++ tail).length := by
    rw [hplen, List.length_append]; omega
  have hlt2 : f.length < (f ++ tail).length := by rw [List.length_append]; omega
  rw [decode_danmu, if_neg (by rw [List.length_append]; omega)]
  simp only [hplen, if_pos hlt2]
  rw [List.drop_left, h]

theorem decode_zero_packet (inflate : List Nat → Option (List Nat))
    (jsonParse : List Nat → Option JVal) (fuel : Nat) :
    decode_danmu inflate jsonParse fuel (List.replicate 9 0) =
      ([], some PyErr.recursionError) := by
  induction fuel with
  | zero => rw [decode_danmu]
  | succ n ih =>
    have h0 : lenField (List.replicate 9 0) = 0 := by decide
    have h9 : (List.replicate 9 (0 : Nat)).length = 9 := by decide
    rw [decode_danmu, if_neg (by omega)]
    simp only [h0]
    rw [if_pos (by omega), List.drop_zero, ih]

theorem decode_ver2_fail (inflate : List Nat → Option (List Nat))
    (jsonParse : List Nat → Option JVal) (f : List Nat) (h16 : 16 ≤ f.length)
    (hlen : lenField f = f.length) (hver : verField f = 2)
    (hinf : inflate (List.drop 16 f) = none) (fuel : Nat) :
    decode_danmu inflate jsonParse (fuel + 1) f = ([], some PyErr.zlibError) := by
  rw [decode_danmu, if_neg (by omega)]
  simp only [hlen, lt_self_iff_false, if_false]
  simp [processFrame, hver, hinf]

theorem decode_ver2_fail_keeps (inflate : List Nat → Option (List Nat))
    (jsonParse : List Nat → Option JVal) (f g : List Nat) (h16 : 16 ≤ f.length)
    (hlen : lenField f = f.length) (hver : verField f = 2)
    (hinf : inflate (List.drop 16 f) = none) (hg : ValidFrame g) (fuel : Nat) :
    decode_danmu inflate jsonParse (fuel + 2) (f ++ g) =
      (frameEntries jsonParse g, some PyErr.zlibError) := by
  have hgpos : 0 < g.length := by have := hg.1; omega
  have hplen : lenField (f ++ g) = f.length := by
    rw [lenField_append _ _ (by omega), hlen]
  have hlt : lenField (f ++ g) < (f ++ g).length := by
    rw [hplen, List.length_append]; omega
  have hlt2 : f.length < (f ++ g).length := by rw [List.length_append]; omega
  rw [decode_danmu, if_neg (by rw [List.length_append]; omega)]
  simp only [hplen, if_pos hlt2]
  rw [List.drop_left, List.take_left, decode_single _ _ _ _ hg]
  rw [verField_append _ _ (by omega)]
  simp [processFrame, hver, hinf]

theorem decode_ver2_ok (inflate : List Nat → Option (List Nat))
    (jsonParse : List Nat → Option JVal) (f : List Nat) (frames : List (List Nat))
    (fuel : Nat) (h16 : 16 ≤ f.length) (hlen : lenField f = f.length)
    (hver : verField f = 2) (hinf : inflate (List.drop 16 f) = some frames.flatten)
    (hne : frames ≠ []) (hv : ∀ g ∈ frames, ValidFrame g) (hfuel : frames.length ≤ fuel) :
    decode_danmu inflate jsonParse (fuel + 1) f =
      (((frames.reverse).map (frameEntries jsonParse)).flatten, none) := by
  rw [decode_danmu, if_neg (by omega)]
  simp only [hlen, lt_self_iff_false, if_false]
  simp [processFrame, hver, hinf, decode_join inflate jsonParse frames fuel hne hv hfuel]

end Danmuji

namespace Danmuji

theorem letterOfIdx_facts : ∀ a < 52, isLetterAZ (letterOfIdx a) = true ∧
    colOf (letterOfIdx a) = a % 26 ∧ isDigit09 (letterOfIdx a) = false ∧
    letterOfIdx a ≠ '!' ∧ letterOfIdx a ≠ '！' := by decide

theorem digitChar_facts : ∀ n < 10, isDigit09 (digitChar n) = true ∧
    digitVal (digitChar n) = n ∧ isLetterAZ (digitChar n) = false ∧
    digitChar n ≠ '!' ∧ digitChar n ≠ '！' := by decide

theorem tailLD_LDD (L d1 d2 : Char) (rest : List Char) (hL : isLetterAZ L = true)
    (h1 : isDigit09 d1 = true) (h2 : isDigit09 d2 = true) :
    tailLD (L :: d1 :: d2 :: rest) = some (colOf L, 10 * digitVal d1 + digitVal d2) := by
  simp [tailLD, hL, h1, h2]

theorem tailLD_LD_end (L d1 : Char) (hL : isLetterAZ L = true) (h1 : isDigit09 d1 = true) :
    tailLD [L, d1] = some (colOf L, digitVal d1) := by
  simp [tailLD, hL, h1]

theorem tailLD_notLetter (x : Char) (cs : List Char) (hx : isLetterAZ x = false) :
    tailLD (x :: cs) = none := by
  cases cs with
  | nil => simp [tailLD]
  | cons b t => cases t <;> simp [tailLD, hx]

theorem tailDL_DDL (d1 d2 L : Char) (rest : List Char) (h1 : isDigit09 d1 = true)
    (h2 : isDigit09 d2 = true) (hL : isLetterAZ L = true) :
    tailDL (d1 :: d2 :: L :: rest) = some (colOf L, 10 * digitVal d1 + digitVal d2) := by
  simp [tailDL, h1, h2, hL]

theorem tailDL_DL_end (d1 L : Char) (h1 : isDigit09 d1 = true) (hL : isLetterAZ L = true) :
    tailDL [d1, L] = some (colOf L, digitVal d1) := by
  simp [tailDL, h1, hL]

theorem tailDL_notDigit (x : Char) (cs : List Char) (hx : isDigit09 x = false) :
    tailDL (x :: cs) = none := by
  cases cs with
  | nil => simp [tailDL]
  | cons b t => cases t <;> simp [tailDL, hx]

theorem matchLetterFirst_marks (c : Char) (hc : c = '!' ∨ c = '！') (k : Nat) (hk : k ≤ 2)
    (L : Char) (hb1 : L ≠ '!') (hb2 : L ≠ '！') (ds : List Char) (col row : Nat)
    (htail : tailLD (L :: ds) = some (col, row)) :
    matchLetterFirst (List.replicate k c ++ L :: ds) = some (k, col, row) := by
  have hA : isLetterAZ '!' = false := by decide
  have hB : isLetterAZ '！' = false := by decide
  have hne : ('!' : Char) ≠ '！' := by decide
  cases ds with
  | nil => simp [tailLD] at htail
  | cons d ds2 =>
    interval_cases k <;> rcases hc with rfl | rfl <;>
      simp [matchLetterFirst, bangSpans, List.replicate, htail, hb1, hb2, hne, hne.symm,
        tailLD_notLetter _ _ hA, tailLD_notLetter _ _ hB]

theorem matchLetterFirst_noLetter (c : Char) (hc : c = '!' ∨ c = '！') (k : Nat) (hk : k ≤ 2)
    (d : Char) (hd : isLetterAZ d = false) (hd1 : d ≠ '!') (hd2 : d ≠ '！') (ds : List Char) :
    matchLetterFirst (List.replicate k c ++ d :: ds) = none := by
  have hA : isLetterAZ '!' = false := by decide
  have hB : isLetterAZ '！' = false := by decide
  have hne : ('!' : Char) ≠ '！' := by decide
  cases ds with
  | nil =>
    interval_cases k <;> rcases hc with rfl | rfl <;>
      simp [matchLetterFirst, bangSpans, List.replicate, hd1, hd2, hne, hne.symm, hA, hB, hd,
        tailLD_notLetter _ _ hA, tailLD_notLetter _ _ hB, tailLD_notLetter _ _ hd]
  | cons d2 ds2 =>
    interval_cases k <;> rcases hc with rfl | rfl <;>
      simp [matchLetterFirst, bangSpans, List.replicate, hd1, hd2, hne, hne.symm,
        tailLD_notLetter _ _ hA, tailLD_notLetter _ _ hB, tailLD_notLetter _ _ hd]

theorem matchDigitFirst_marks (c : Char) (hc : c = '!' ∨ c = '！') (k : Nat) (hk : k ≤ 2)
    (d : Char) (hd1 : d ≠ '!') (hd2 : d ≠ '！') (ds : List Char) (col row : Nat)
    (htail : tailDL (d :: ds) = some (col, row)) :
    matchDigitFirst (List.replicate k c ++ d :: ds) = some (k, col, row) := by
  have hA : isDigit09 '!' = false := by decide
  have hB : isDigit09 '！' = false := by decide
  have hne : ('!' : Char) ≠ '！' := by decide
  cases ds with
  | nil => simp [tailDL] at htail
  | cons d2 ds2 =>
    interval_cases k <;> rcases hc with rfl | rfl <;>
      simp [matchDigitFirst, bangSpans, List.replicate, htail, hd1, hd2, hne, hne.symm,
        tailDL_notDigit _ _ hA, tailDL_notDigit _ _ hB]

end Danmuji
namespace Danmuji

theorem parseBody_unknown_cmd (jd v : JVal) (hcmd : jlookup jd "cmd" = Except.ok v)
    (h1 : jeqStr v "SEND_GIFT" = false) (h2 : jeqStr v "GUARD_BUY" = false)
    (h3 : jeqStr v "DANMU_MSG" = false) : parseBody jd = Except.ok [] := by
  simp [parseBody, hcmd, h1, h2, h3, bind, Except.bind, pure, Except.pure]

theorem decode_op5_silent (inflate : List Nat → Option (List Nat))
    (jsonParse : List Nat → Option JVal) (fuel : Nat) (data : List Nat)
    (hv : ValidFrame data)
    (hq : jsonParse (List.drop 16 data) = none ∨
      ∃ jd, jsonParse (List.drop 16 data) = some jd ∧ catchEntries (parseBody jd) = []) :
    decode_danmu inflate jsonParse (fuel + 1) data = ([], none) := by
  rw [decode_single _ _ _ _ hv]
  unfold frameEntries branchEntries
  by_cases hv1 : verField data = 1
  · simp [hv1]
  · rw [if_neg hv1]
    by_cases h5 : opField data = 5
    · rw [if_pos h5]
      rcases hq with hq | ⟨jd, hjd, hcatch⟩
      · simp [hq]
      · simp [hjd, hcatch]
    · simp [h5]

theorem runOps_exact (ops : List QOp) :
    ∀ l : List Entry, (runOps ops l).2 ++ (runOps ops l).1 = l ++ pushedOf ops := by
  induction ops with
  | nil => intro l; simp [runOps, pushedOf]
  | cons op ops ih =>
    intro l
    cases op with
    | push e => simp [runOps, pushedOf, pushEntry, ih (l ++ [e])]
    | drain => simp [runOps, pushedOf, get_danmu_list, ih []]

end Danmuji

namespace Danmuji

/-- C1, counterexample to the order part of the claim: two structurally
valid uncompressed DANMU_MSG frames decoded alone yield one entry each,
but decoding their concatenation yields the two entries in reversed
buffer order, because decode_danmu recurses into the remainder of the
buffer before processing the leading frame.  The two entries differ, so
the output order is observably wrong. -/
theorem c1_counterexample :
    decode_danmu inflateNone jsonEx 1 frameEx1 = ([entryEx1], none) ∧
    decode_danmu inflateNone jsonEx 1 frameEx2 = ([entryEx2], none) ∧
    decode_danmu inflateNone jsonEx 2 (frameEx1 ++ frameEx2) = ([entryEx2, entryEx1], none) ∧
    entryEx1 ≠ entryEx2 :=
  ⟨rfl, rfl, rfl, by simp [entryEx1, entryEx2]⟩

/-- C1 (amended): for every buffer that is the concatenation of a
nonempty list of structurally valid uncompressed frames, decode_danmu
terminates without an exception, processes each frame exactly once, and
appends the per-frame results in reversed buffer order: the results of
a later frame in the buffer appear before the results of an earlier
frame, because the remainder of the buffer is decoded before the
current frame. -/
theorem c1_amended (inflate : List Nat → Option (List Nat))
    (jsonParse : List Nat → Option JVal) (frames : List (List Nat)) (fuel : Nat)
    (hne : frames ≠ []) (hv : ∀ f ∈ frames, ValidFrame f)
    (hfuel : frames.length ≤ fuel) :
    decode_danmu inflate jsonParse fuel frames.flatten =
      (((frames.reverse).map (frameEntries jsonParse)).flatten, none) :=
  decode_join inflate jsonParse frames fuel hne hv hfuel

/-- C1 witness: the amended theorem applied to the two concrete sample
frames with fuel two. -/
theorem c1_amended_witness :
    decode_danmu inflateNone jsonEx 2 ([frameEx1, frameEx2]).flatten =
      ((([frameEx1, frameEx2]).reverse.map (frameEntries jsonEx)).flatten, none) :=
  c1_amended inflateNone jsonEx [frameEx1, frameEx2] 2 (by simp) (by decide) (by decide)

/-- C2, counterexample: a four-byte buffer is too short for the
version field read, so int of an empty hex string raises ValueError;
decode_danmu does not return normally as the claim states. -/
theorem c2_counterexample :
    decode_danmu inflateNone jsonNone 1 [0, 0, 0, 0] = ([], some PyErr.valueError) := rfl

/-- C2 (amended): decode_danmu raises rather than returning on
malformed buffers.  Every buffer of at most eight bytes raises
ValueError from one of the three header reads; when such a truncated
tail follows a valid frame, the tail is decoded first and its exception
propagates before the leading frame is processed, so the earlier
frame's results are discarded rather than kept; and a length field of
zero on a longer buffer recurses forever, raising RecursionError at
any recursion limit. -/
theorem c2_amended (inflate : List Nat → Option (List Nat))
    (jsonParse : List Nat → Option JVal) :
    (∀ fuel data, data.length ≤ 8 → 1 ≤ fuel →
      decode_danmu inflate jsonParse fuel data = ([], some PyErr.valueError)) ∧
    (∀ fuel f tail, ValidFrame f → tail ≠ [] → tail.length ≤ 8 →
      decode_danmu inflate jsonParse (fuel + 2) (f ++ tail) = ([], some PyErr.valueError)) ∧
    (∀ fuel, decode_danmu inflate jsonParse fuel (List.replicate 9 0) =
      ([], some PyErr.recursionError)) := by
  refine ⟨fun fuel data h hf => decode_short _ _ _ _ h hf,
    fun fuel f tail hv ht h8 => ?_, fun fuel => decode_zero_packet _ _ _⟩
  exact decode_split_err _ _ f tail hv ht (fuel + 1) [] PyErr.valueError
    (decode_short _ _ _ _ h8 (by omega))

/-- C2 witness: the amended theorem at a four-byte buffer, at a valid
frame followed by a one-byte tail, and at the nine-byte zero buffer. -/
theorem c2_amended_witness :
    decode_danmu inflateNone jsonNone 1 [0, 0, 0, 16] = ([], some PyErr.valueError) ∧
    decode_danmu inflateNone jsonEx 3 (frameEx1 ++ [0]) = ([], some PyErr.valueError) ∧
    decode_danmu inflateNone jsonNone 4 (List.replicate 9 0) =
      ([], some PyErr.recursionError) :=
  ⟨(c2_amended inflateNone jsonNone).1 1 [0, 0, 0, 16] (by decide) (by decide),
   (c2_amended inflateNone jsonEx).2.1 1 frameEx1 [0] (by decide) (by decide) (by decide),
   (c2_amended inflateNone jsonNone).2.2 4⟩

/-- C3: a version-2 frame whose payload decompresses to the
concatenation of a nonempty list of structurally valid uncompressed
frames decodes to exactly the results of those frames; the wrapping
frame contributes nothing of its own. -/
theorem c3_compressed_frames (inflate : List Nat → Option (List Nat))
    (jsonParse : List Nat → Option JVal) (f : List Nat) (frames : List (List Nat))
    (fuel : Nat) (h16 : 16 ≤ f.length) (hlen : lenField f = f.length)
    (hver : verField f = 2) (hinf : inflate (List.drop 16 f) = some frames.flatten)
    (hne : frames ≠ []) (hv : ∀ g ∈ frames, ValidFrame g)
    (hfuel : frames.length ≤ fuel) :
    decode_danmu inflate jsonParse (fuel + 1) f =
      (((frames.reverse).map (frameEntries jsonParse)).flatten, none) :=
  decode_ver2_ok inflate jsonParse f frames fuel h16 hlen hver hinf hne hv hfuel

/-- C3 witness: the theorem applied to the concrete wrapper frame whose
payload is the real zlib compression of the two sample frames. -/
theorem c3_witness :
    decode_danmu inflateEx jsonEx 3 frameWrap =
      ((([frameEx1, frameEx2]).reverse.map (frameEntries jsonEx)).flatten, none) :=
  c3_compressed_frames inflateEx jsonEx frameWrap [frameEx1, frameEx2] 2
    (by decide) (by decide) (by decide) (by decide) (by simp) (by decide) (by decide)

/-- C4, counterexample: a version-2 frame whose payload fails
decompression makes decode_danmu raise zlib.error rather than dropping
the frame and continuing; the error propagates out of the call (and
recv_danmu has no handler around decode_danmu, so the receive loop
does not continue).  The second conjunct shows the same buffer preceded
by its remainder frame: entries decoded before the failure survive, but
the exception still escapes. -/
theorem c4_counterexample :
    decode_danmu inflateNone jsonEx 1 frameZbad = ([], some PyErr.zlibError) ∧
    decode_danmu inflateNone jsonEx 2 (frameZbad ++ frameEx2) =
      ([entryEx2], some PyErr.zlibError) :=
  ⟨rfl, rfl⟩

/-- C4 (amended): for every version-2 frame whose payload fails zlib
decompression, decode_danmu raises zlib.error (which propagates out of
the call and out of the receive loop's iteration, since recv_danmu does
not catch it); the offending frame contributes no entries, and entries
already appended during the same call, which come from frames later in
the buffer because those are decoded first, are retained. -/
theorem c4_amended (inflate : List Nat → Option (List Nat))
    (jsonParse : List Nat → Option JVal) (f : List Nat) (fuel : Nat)
    (h16 : 16 ≤ f.length) (hlen : lenField f = f.length) (hver : verField f = 2)
    (hinf : inflate (List.drop 16 f) = none) :
    decode_danmu inflate jsonParse (fuel + 1) f = ([], some PyErr.zlibError) ∧
    (∀ g, ValidFrame g → decode_danmu inflate jsonParse (fuel + 2) (f ++ g) =
      (frameEntries jsonParse g, some PyErr.zlibError)) :=
  ⟨decode_ver2_fail _ _ f h16 hlen hver hinf fuel,
   fun g hg => decode_ver2_fail_keeps _ _ f g h16 hlen hver hinf hg fuel⟩

/-- C4 witness: the amended theorem at the concrete bad version-2
frame, alone and followed by a valid frame. -/
theorem c4_amended_witness :
    decode_danmu inflateNone jsonEx 1 frameZbad = ([], some PyErr.zlibError) ∧
    decode_danmu inflateNone jsonEx 2 (frameZbad ++ frameEx2) =
      (frameEntries jsonEx frameEx2, some PyErr.zlibError) :=
  ⟨(c4_amended inflateNone jsonEx frameZbad 0 (by decide) (by decide) (by decide) rfl).1,
   (c4_amended inflateNone jsonEx frameZbad 0 (by decide) (by decide) (by decide) rfl).2
     frameEx2 (by decide)⟩

end Danmuji

namespace Danmuji

/-- C5: for every letter (lowercase index below twenty-six, uppercase
from twenty-six to fifty-one), every row number below one hundred in
its one- or two-digit decimal form (the one-digit form only below
ten), every marker count zero to two and either bang character, the
chat text marker-letter-digits classifies to the openCell, check or
uncheck command with the column equal to the letter index modulo
twenty-six and the row equal to the number, and the digits-then-letter
order classifies identically.  The check command is the single-marker
case and uncheck the double-marker case, matching the claim's
MarkChecked and ClearChecked. -/
theorem c5_cell_commands :
    ∀ k, k < 3 → ∀ i, i < 2 → ∀ a, a < 52 → ∀ r, r < 100 → ∀ twoDigit : Bool,
      (twoDigit = false → r < 10) →
      classifyText (markerChars k i ++ letterOfIdx a :: rowDigits r twoDigit) =
          some (cmdOfCount k (a % 26) r) ∧
        classifyText (markerChars k i ++ rowDigits r twoDigit ++ [letterOfIdx a]) =
          some (cmdOfCount k (a % 26) r) := by
  intro k hk i hi a ha r hr twoDigit htd
  obtain ⟨hL, hcol, hLd, hL1, hL2⟩ := letterOfIdx_facts a ha
  have hc : bangOf i = '!' ∨ bangOf i = '！' := by
    interval_cases i <;> simp [bangOf]
  have hk2 : k ≤ 2 := by omega
  cases twoDigit with
  | false =>
    have hr10 : r < 10 := htd rfl
    obtain ⟨hd, hdv, hdl, hd1, hd2⟩ := digitChar_facts r hr10
    have hrow : rowDigits r false = [digitChar r] := by simp [rowDigits]
    constructor
    · have hm := matchLetterFirst_marks (bangOf i) hc k hk2 (letterOfIdx a) hL1 hL2
        [digitChar r] (colOf (letterOfIdx a)) (digitVal (digitChar r))
        (tailLD_LD_end _ _ hL hd)
      rw [hrow]
      simp [classifyText, markerChars, hm, hcol, hdv]
    · have hnone := matchLetterFirst_noLetter (bangOf i) hc k hk2 (digitChar r) hdl hd1 hd2
        [letterOfIdx a]
      have hm := matchDigitFirst_marks (bangOf i) hc k hk2 (digitChar r) hd1 hd2
        [letterOfIdx a] (colOf (letterOfIdx a)) (digitVal (digitChar r))
        (tailDL_DL_end _ _ hd hL)
      rw [hrow]
      simp [classifyText, markerChars, hnone, hm, hcol, hdv]
  | true =>
    have hr1 : r / 10 < 10 := by omega
    have hr2 : r % 10 < 10 := by omega
    obtain ⟨hdA, hdvA, hdlA, hdA1, hdA2⟩ := digitChar_facts (r / 10) hr1
    obtain ⟨hdB, hdvB, hdlB, hdB1, hdB2⟩ := digitChar_facts (r % 10) hr2
    have hrow : rowDigits r true = [digitChar (r / 10), digitChar (r % 10)] := by
      simp [rowDigits]
    have hval : 10 * digitVal (digitChar (r / 10)) + digitVal (digitChar (r % 10)) = r := by
      rw [hdvA, hdvB]; omega
    constructor
    · have hm := matchLetterFirst_marks (bangOf i) hc k hk2 (letterOfIdx a) hL1 hL2
        [digitChar (r / 10), digitChar (r % 10)] (colOf (letterOfIdx a)) _
        (tailLD_LDD _ _ _ [] hL hdA hdB)
      rw [hrow]
      simp [classifyText, markerChars, hm, hcol, hval]
    · have hnone := matchLetterFirst_noLetter (bangOf i) hc k hk2 (digitChar (r / 10))
        hdlA hdA1 hdA2 (digitChar (r % 10) :: [letterOfIdx a])
      have hm := matchDigitFirst_marks (bangOf i) hc k hk2 (digitChar (r / 10)) hdA1 hdA2
        (digitChar (r % 10) :: [letterOfIdx a]) (colOf (letterOfIdx a)) _
        (tailDL_DDL _ _ _ [] hdA hdB hL)
      rw [hrow]
      simp [classifyText, markerChars, hnone, hm, hcol, hval]

/-- C5 witness: one ASCII marker, the letter a, the single digit five,
in both token orders. -/
theorem c5_witness :
    classifyText (markerChars 1 0 ++ letterOfIdx 0 :: rowDigits 5 false) =
        some (cmdOfCount 1 (0 % 26) 5) ∧
      classifyText (markerChars 1 0 ++ rowDigits 5 false ++ [letterOfIdx 0]) =
        some (cmdOfCount 1 (0 % 26) 5) :=
  c5_cell_commands 1 (by decide) 0 (by decide) 0 (by decide) 5 (by decide) false
    (fun _ => by decide)

/-- C6, counterexample: the chat text Easy, the word easy in mixed
letter case, classifies to nothing, because the third regex only lists
the all-lowercase and all-uppercase literals; the claim expects
SetDifficulty with level EASY for any letter case. -/
theorem c6_counterexample :
    classifyText "Easy".data = none ∧
      ¬ classifyText "Easy".data = some (TextCmd.difficulty "EASY") := by decide

/-- C6 (amended): a chat text equal to easy or normal entirely in
lowercase or entirely in uppercase classifies to the difficulty
command with the uppercased word as level; mixed-case spellings such
as Easy, Normal or eASY match none of the literals and yield no
command. -/
theorem c6_amended :
    classifyText "easy".data = some (TextCmd.difficulty "EASY") ∧
    classifyText "EASY".data = some (TextCmd.difficulty "EASY") ∧
    classifyText "normal".data = some (TextCmd.difficulty "NORMAL") ∧
    classifyText "NORMAL".data = some (TextCmd.difficulty "NORMAL") ∧
    classifyText "Easy".data = none ∧
    classifyText "Normal".data = none ∧
    classifyText "eASY".data = none := by decide

end Danmuji

namespace Danmuji

/-- C7: for a structurally valid opcode-5 frame, the three parse
failure modes of the claim leave the danmu list untouched and raise
nothing out of decode_danmu: json.loads raising (the oracle returns
none), the parsed object raising inside the try block (missing keys,
wrong shapes), and a cmd value that is none of the three recognized
commands.  In the code there is no Unknown value; being treated as
unknown is precisely appending nothing and continuing. -/
theorem c7_opcode5_failures (inflate : List Nat → Option (List Nat))
    (jsonParse : List Nat → Option JVal) (fuel : Nat) (data : List Nat)
    (hv : ValidFrame data) (_hop : opField data = 5) :
    (jsonParse (List.drop 16 data) = none →
      decode_danmu inflate jsonParse (fuel + 1) data = ([], none)) ∧
    (∀ jd e, jsonParse (List.drop 16 data) = some jd → parseBody jd = Except.error e →
      decode_danmu inflate jsonParse (fuel + 1) data = ([], none)) ∧
    (∀ jd v, jsonParse (List.drop 16 data) = some jd →
      jlookup jd "cmd" = Except.ok v → jeqStr v "SEND_GIFT" = false →
      jeqStr v "GUARD_BUY" = false → jeqStr v "DANMU_MSG" = false →
      decode_danmu inflate jsonParse (fuel + 1) data = ([], none)) := by
  refine ⟨fun h => decode_op5_silent _ _ _ _ hv (Or.inl h),
    fun jd e hjd hpb => decode_op5_silent _ _ _ _ hv (Or.inr ⟨jd, hjd, ?_⟩),
    fun jd v hjd hcmd h1 h2 h3 => decode_op5_silent _ _ _ _ hv (Or.inr ⟨jd, hjd, ?_⟩)⟩
  · simp [catchEntries, hpb]
  · simp [catchEntries, parseBody_unknown_cmd jd v hcmd h1 h2 h3]

/-- C7 witness: the three failure modes at the minimal opcode-5 frame:
a json.loads oracle that raises, one returning an object without the
cmd key (KeyError inside the try block), and one returning an
unrecognized cmd. -/
theorem c7_witness :
    decode_danmu inflateNone jsonNone 1 frame16 = ([], none) ∧
    decode_danmu inflateNone jsonKeyless 1 frame16 = ([], none) ∧
    decode_danmu inflateNone jsonOther 1 frame16 = ([], none) :=
  ⟨(c7_opcode5_failures inflateNone jsonNone 0 frame16 (by decide) (by decide)).1 rfl,
   (c7_opcode5_failures inflateNone jsonKeyless 0 frame16 (by decide) (by decide)).2.1
     (JVal.jobj []) PyErr.keyError rfl rfl,
   (c7_opcode5_failures inflateNone jsonOther 0 frame16 (by decide) (by decide)).2.2
     jdOther (JVal.jstr "LIVE") rfl rfl rfl rfl rfl⟩

/-- C8: a SEND_GIFT payload with the data fields present appends the
gift entry for data.uname exactly when data.giftName is the tracked
gift, and a GUARD_BUY payload with data.username present always
appends the gift entry for that user. -/
theorem c8_gift_commands (jd1 d1 u1 n1 g1 jd2 d2 u2 : JVal)
    (h1 : jlookup jd1 "cmd" = Except.ok (JVal.jstr "SEND_GIFT"))
    (h2 : jlookup jd1 "data" = Except.ok d1)
    (h3 : jlookup d1 "uname" = Except.ok u1)
    (h4 : jlookup d1 "num" = Except.ok n1)
    (h5 : jlookup d1 "giftName" = Except.ok g1)
    (h6 : jlookup jd2 "cmd" = Except.ok (JVal.jstr "GUARD_BUY"))
    (h7 : jlookup jd2 "data" = Except.ok d2)
    (h8 : jlookup d2 "username" = Except.ok u2) :
    parseBody jd1 = Except.ok (if jeqStr g1 "吃瓜" then [Entry.gift u1] else []) ∧
      parseBody jd2 = Except.ok [Entry.gift u2] := by
  have e1 : jeqStr (JVal.jstr "SEND_GIFT") "SEND_GIFT" = true := rfl
  have e2 : jeqStr (JVal.jstr "GUARD_BUY") "SEND_GIFT" = false := rfl
  have e3 : jeqStr (JVal.jstr "GUARD_BUY") "GUARD_BUY" = true := rfl
  constructor
  · simp [parseBody, h1, h2, h3, h4, h5, e1, bind, Except.bind, pure, Except.pure,
      apply_ite Except.ok]
  · simp [parseBody, h6, h7, h8, e2, e3, bind, Except.bind, pure, Except.pure,
      Functor.map, Except.map]

/-- C8 witness: the theorem at the concrete tracked-gift payload, the
concrete other-gift payload, and the concrete GUARD_BUY payload. -/
theorem c8_witness :
    parseBody jdGift = Except.ok [Entry.gift (JVal.jstr "g1")] ∧
    parseBody jdGiftOther = Except.ok [] ∧
    parseBody jdGuard = Except.ok [Entry.gift (JVal.jstr "g2")] :=
  ⟨(c8_gift_commands jdGift
      (JVal.jobj [("uname", JVal.jstr "g1"), ("num", JVal.jnum 3),
        ("giftName", JVal.jstr "吃瓜")])
      (JVal.jstr "g1") (JVal.jnum 3) (JVal.jstr "吃瓜") jdGuard
      (JVal.jobj [("username", JVal.jstr "g2")]) (JVal.jstr "g2")
      rfl rfl rfl rfl rfl rfl rfl rfl).1,
   (c8_gift_commands jdGiftOther
      (JVal.jobj [("uname", JVal.jstr "g1"), ("num", JVal.jnum 3),
        ("giftName", JVal.jstr "辣条")])
      (JVal.jstr "g1") (JVal.jnum 3) (JVal.jstr "辣条") jdGuard
      (JVal.jobj [("username", JVal.jstr "g2")]) (JVal.jstr "g2")
      rfl rfl rfl rfl rfl rfl rfl rfl).1,
   (c8_gift_commands jdGift
      (JVal.jobj [("uname", JVal.jstr "g1"), ("num", JVal.jnum 3),
        ("giftName", JVal.jstr "吃瓜")])
      (JVal.jstr "g1") (JVal.jnum 3) (JVal.jstr "吃瓜") jdGuard
      (JVal.jobj [("username", JVal.jstr "g2")]) (JVal.jstr "g2")
      rfl rfl rfl rfl rfl rfl rfl rfl).2⟩

/-- C9: get_danmu_list returns the whole current list in insertion
order and leaves the empty list behind; a second drain with no push in
between returns the empty list; and over any sequence of pushes and
drains run sequentially (each operation holds the lock for its whole
body, so interleavings are exactly these sequences), the concatenation
of everything drained followed by the final list content equals the
initial content followed by every pushed entry in order: nothing is
lost and nothing is delivered twice. -/
theorem c9_queue_drain :
    (∀ l : List Entry, get_danmu_list l = (l, [])) ∧
    (∀ l : List Entry, (get_danmu_list (get_danmu_list l).2).1 = []) ∧
    (∀ ops : List QOp, ∀ l : List Entry,
      (runOps ops l).2 ++ (runOps ops l).1 = l ++ pushedOf ops) :=
  ⟨fun _ => rfl, fun _ => rfl, runOps_exact⟩

end Danmuji
